import Mathlib

/-!
# Verification of the Claims Processing UI client (`src/challenge-5/app.py`)

A shallow embedding of the pure logic of the Streamlit client: JSON values
returned by the backend are modelled by `JVal` (numbers as exact rationals),
Python dictionaries by association lists, Python truthiness by `pyTruthy`,
and each function of the source (`severity_pill`, `check_health`,
`process_claim`, `display_results`, the mime inference and URL resolution in
`main`) by a Lean function of the same name.  Network effects are modelled by
an explicit backend-behaviour argument.  Python string primitives
(`str.strip`, `str.lower`, `str.rstrip`, `str.endswith`) are embedded
directly on character lists.
-/

/-- A JSON value as produced by `httpx.Response.json()`.  Numbers are
modelled as exact rationals (Python distinguishes `int` and `float`; every
number a claim evaluates is exactly representable, and `isinstance(x,
(int, float))` holds of `bool` as well, which keeps its own constructor). -/
inductive JVal where
  | null : JVal
  | bool : Bool → JVal
  | num : ℚ → JVal
  | str : String → JVal
  | arr : List JVal → JVal
  | obj : List (String × JVal) → JVal

/-- Python truthiness (`bool(x)`) on the modelled JSON values: `None` and
`False` are falsy, numbers are truthy iff nonzero, strings, lists and dicts
are truthy iff nonempty. -/
def pyTruthy : JVal → Bool
  | .null => false
  | .bool b => b
  | .num q => q ≠ 0
  | .str s => s ≠ ""
  | .arr xs => !xs.isEmpty
  | .obj fs => !fs.isEmpty

/-- Lookup `d[k]` on a Python dict modelled as an association list:
`some v` when the key is present, `none` when absent. -/
def jGet (fields : List (String × JVal)) (k : String) : Option JVal :=
  (fields.find? (fun kv => kv.1 = k)).map (·.2)

/-- Python `d.get(k, default)`. -/
def jGetD (fields : List (String × JVal)) (k : String) (d : JVal) : JVal :=
  (jGet fields k).getD d

/-- ASCII lower-casing of one character, as Python `str.lower` acts on the
ASCII range (the only range the source's keyword sets exercise). -/
def pyLowerChar (c : Char) : Char :=
  if 'A' ≤ c ∧ c ≤ 'Z' then Char.ofNat (c.toNat + 32) else c

/-- Python `str.lower`. -/
def pyLower (s : String) : String := ⟨s.data.map pyLowerChar⟩

/-- Python `str.isspace` on one character (the whitespace set stripped by
`str.strip`). -/
def pySpace (c : Char) : Bool :=
  c = ' ' || c = '\t' || c = '\n' || c = '\r' || c = '\x0b' || c = '\x0c'

/-- Python `str.strip()`: drop leading and trailing whitespace. -/
def pyStrip (s : String) : String :=
  ⟨((s.data.dropWhile pySpace).reverse.dropWhile pySpace).reverse⟩

/-- Python `str.endswith(suffix)`. -/
def pyEndsWith (s suffix : String) : Bool :=
  suffix.data.isSuffixOf s.data

/-- Python `str.rstrip("/")`: drop trailing slashes. -/
def rstripSlash (s : String) : String :=
  ⟨(s.data.reverse.dropWhile (fun c => c = '/')).reverse⟩

/-- Decimal digits of the fractional part `r / d` (with `r < d`), at most
`fuel` digits; used only to render non-integral numbers. -/
def decDigits : Nat → Nat → Nat → String
  | 0, _, _ => ""
  | f + 1, r, d =>
      if r = 0 then ""
      else toString (r * 10 / d) ++ decDigits f (r * 10 % d) d

/-- Rendering of a modelled JSON number by Python `str`: integral values
print like Python `int`s, other rationals with a decimal expansion (Python's
shortest-roundtrip `float` repr is approximated by the exact expansion; no
claim evaluates this branch). -/
def numStr (q : ℚ) : String :=
  if q.den = 1 then toString q.num
  else
    (if q < 0 then "-" else "")
      ++ toString (q.num.natAbs / q.den) ++ "."
      ++ decDigits 17 (q.num.natAbs % q.den) q.den

mutual

/-- Python `repr` of a modelled JSON value (string quoting approximated by
plain single quotes; no claim evaluates a string's repr). -/
def pyRepr : JVal → String
  | .null => "None"
  | .bool b => if b then "True" else "False"
  | .num q => numStr q
  | .str s => "'" ++ s ++ "'"
  | .arr xs => "[" ++ pyReprList xs ++ "]"
  | .obj fs => "\x7b" ++ pyReprObj fs ++ "\x7d"

/-- Comma-separated reprs of the elements of a Python list. -/
def pyReprList : List JVal → String
  | [] => ""
  | [x] => pyRepr x
  | x :: y :: xs => pyRepr x ++ ", " ++ pyReprList (y :: xs)

/-- Comma-separated `'key': repr(value)` entries of a Python dict. -/
def pyReprObj : List (String × JVal) → String
  | [] => ""
  | [kv] => "'" ++ kv.1 ++ "': " ++ pyRepr kv.2
  | kv :: kv2 :: kvs => "'" ++ kv.1 ++ "': " ++ pyRepr kv.2 ++ ", " ++ pyReprObj (kv2 :: kvs)

end

/-- Python `str` of a modelled JSON value, as used by f-string interpolation
in the source: a string is itself, everything else prints as its repr. -/
def pyStr : JVal → String
  | .str s => s
  | v => pyRepr v

/-- Severity tier of the pill rendered by `severity_pill`: the CSS class
`pill-bad` / `pill-warn` / `pill-ok` / `pill-neutral` chosen by the source. -/
inductive Tier where
  | high : Tier
  | medium : Tier
  | low : Tier
  | neutral : Tier
deriving Repr, DecidableEq

/-- The lookup key `s = (severity or "").strip().lower()` computed by
`severity_pill` (app.py line 117); `severity or ""` maps Python `None` to
the empty string. -/
def severityKey (severity : Option String) : String :=
  pyLower (pyStrip (severity.getD ""))

/-- The function `severity_pill` (app.py lines 116-124), as the pair of the
pill's label text and its tier.  The argument is `Option String` so that
Python `None` is representable; the final `severity or "N/A"` maps both
`None` and `""` to `"N/A"` and passes any other string through verbatim. -/
def severity_pill (severity : Option String) : String × Tier :=
  if severityKey severity ∈ ["severe", "critical", "high", "significant"] then
    ("High", Tier.high)
  else if severityKey severity ∈ ["moderate", "medium"] then ("Medium", Tier.medium)
  else if severityKey severity ∈ ["minor", "low"] then ("Low", Tier.low)
  else
    (match severity with
      | some t => if t = "" then "N/A" else t
      | none => "N/A",
     Tier.neutral)

/-- Behaviour of the backend for one HTTP request: either the transport
raises (`httpx.TransportError` and kin, carrying its `str(e)` message), or a
response arrives with a status code and a body whose JSON parse either
succeeds (`Except.ok`) or raises (`Except.error`, carrying the decode
error's `str(e)` message). -/
inductive Backend where
  | transportError : String → Backend
  | httpResponse : Nat → Except String JVal → Backend

/-- The check `httpx.Response.raise_for_status` raises exactly outside the 2xx range. -/
def is2xx (status : Nat) : Bool := 200 ≤ status && status < 300

/-- The `str(e)` of the `httpx.HTTPStatusError` raised by
`raise_for_status` on a non-2xx status (its exact wording lives in httpx;
only its shape and non-emptiness matter here). -/
def statusErrText (status : Nat) : String :=
  "HTTP status error for status code " ++ toString status

/-- The error dict built by `check_health`'s `except` branch. -/
def healthErr (m : String) : JVal :=
  .obj [("status", .str "error"), ("error", .str m)]

/-- The function `check_health` (app.py lines 95-102): GET `{api_url}/health`; on a 2xx
response return the parsed body, on any raised exception (transport error,
`raise_for_status`, JSON decode) return `{"status": "error", "error":
str(e)}`.  `net` maps the requested URL to the backend's behaviour. -/
def check_health (api_url : String) (net : String → Backend) : JVal :=
  match net (api_url ++ "/health") with
  | .transportError m => healthErr m
  | .httpResponse status body =>
      if is2xx status then
        match body with
        | .ok v => v
        | .error m => healthErr m
      else healthErr (statusErrText status)

/-- The multipart request sent by `process_claim`: target URL plus the
`files={"file": (filename, file_content, mime)}` fields. -/
structure UploadRequest where
  url : String
  filename : String
  content : List Nat
  mime : String

/-- The error dict built by `process_claim`'s `except` branch. -/
def claimErr (m : String) : JVal :=
  .obj [("success", .bool false), ("error", .str m)]

/-- The function `process_claim` (app.py lines 105-113): POST the file to
`{api_url}/process-claim/upload`; on a 2xx response return the parsed body
verbatim, on any raised exception return `{"success": False, "error":
str(e)}`.  `net` maps the multipart request to the backend's behaviour. -/
def process_claim (api_url : String) (file_content : List Nat)
    (filename : String) (mime : String) (net : UploadRequest → Backend) : JVal :=
  match net ⟨api_url ++ "/process-claim/upload", filename, file_content, mime⟩ with
  | .transportError m => claimErr m
  | .httpResponse status body =>
      if is2xx status then
        match body with
        | .ok v => v
        | .error m => claimErr m
      else claimErr (statusErrText status)

/-- Mime inference in `main` (app.py lines 306-310): lower-case the uploaded
filename; `.png` suffix means `image/png`, everything else `image/jpeg`. -/
def inferMime (filename : String) : String :=
  if pyEndsWith (pyLower filename) ".png" then "image/png" else "image/jpeg"

/-- The hard-coded default backend address (app.py line 85). -/
def DEFAULT_URL_LITERAL : String :=
  "https://claims-processing-api.orangeforest-dfe25231.swedencentral.azurecontainerapps.io"

/-- The default `DEFAULT_API_URL` (app.py lines 83-86): the `API_URL` environment
variable when set, else the hard-coded literal, with trailing slashes
stripped.  `env` is `os.environ.get("API_URL")`. -/
def DEFAULT_API_URL (env : Option String) : String :=
  rstripSlash (env.getD DEFAULT_URL_LITERAL)

/-- The function `get_api_url` (app.py lines 89-92) combined with the session override:
the session's `api_url` when one exists, else `DEFAULT_API_URL`, with
trailing slashes stripped on read. -/
def get_api_url (env : Option String) (sessionOverride : Option String) : String :=
  rstripSlash (sessionOverride.getD (DEFAULT_API_URL env))

/-- Groups of three characters, taken from the front of an (already
reversed) digit list; helper for thousands grouping. -/
def chunk3 : List Char → List (List Char)
  | [] => []
  | a :: b :: c :: rest => [a, b, c] :: chunk3 rest
  | l => [l]

/-- Insert thousands separators into a digit string, as Python's `,` format
flag does. -/
def groupThousands (s : String) : String :=
  String.intercalate ","
    (((chunk3 s.data.reverse).map List.reverse).reverse.map String.mk)

/-- The Python format expression `f"{q:,.2f}"` on the modelled number `q`:
round to whole cents (ties, unrepresentable in binary floats, round up
here), then print sign, thousands-grouped integer part, and exactly two
fractional digits. -/
def formatCommas2 (q : ℚ) : String :=
  let cents : Int := Int.fdiv (q.num * 200 + q.den) (2 * q.den)
  (if cents < 0 then "-" else "")
    ++ groupThousands (toString (cents.natAbs / 100))
    ++ "."
    ++ (if cents.natAbs % 100 < 10 then "0" ++ toString (cents.natAbs % 100)
        else toString (cents.natAbs % 100))

/-- The display values computed by `display_results` (app.py lines
127-230), one field per interpolated value of the rendered panels. -/
structure Rendered where
  summaryVehicle : String
  summaryYear : String
  summaryOcr : String
  summaryWorkflow : String
  make : String
  model : String
  color : String
  year : String
  date : String
  location : String
  description : String
  severityLabel : String
  severityTier : Tier
  costDisplay : String
  areasCount : String
  areasList : List JVal
  sourceImage : String

/-- Section extraction `data.get(k, {}) or {}` (app.py lines 131-134): a
falsy or absent section becomes the empty dict; a truthy non-dict value
makes the subsequent `.get` calls raise `AttributeError`. -/
def sectGet (fields : List (String × JVal)) (k : String) :
    Except String (List (String × JVal)) :=
  let v := jGetD fields k (.obj [])
  if pyTruthy v then
    match v with
    | .obj fs => .ok fs
    | _ => .error "AttributeError"
  else .ok []

/-- The affected-areas value after `damage.get("affected_areas", []) or []`
(app.py line 195): absent or falsy (including `None` and `[]`) coerces to
the empty list. -/
def affectedAreasVal (damage : List (String × JVal)) : JVal :=
  let v := jGetD damage "affected_areas" (.arr [])
  if pyTruthy v then v else .arr []

/-- The affected-areas count cell (app.py line 203):
`len(areas) if isinstance(areas, list) else "N/A"` after the coercion of
line 195. -/
def affected_areas_count (damage : List (String × JVal)) : String :=
  match affectedAreasVal damage with
  | .arr xs => toString xs.length
  | _ => "N/A"

/-- The estimated-cost cell (app.py lines 194 and 202):
`f"${est:,.2f}" if isinstance(est, (int, float)) else (est if est is not
None else "N/A")` — `bool` satisfies the `isinstance` check and formats as
0 or 1. -/
def estimated_cost_display (damage : List (String × JVal)) : String :=
  match jGetD damage "estimated_cost" .null with
  | .null => "N/A"
  | .num q => "$" ++ formatCommas2 q
  | .bool b => "$" ++ formatCommas2 (if b then 1 else 0)
  | v => pyStr v

/-- The panel bodies of `display_results` (app.py lines 136-230), given the
four extracted sections. -/
def renderPanels (vehicle damage incident meta : List (String × JVal)) : Rendered :=
  let sevPill := severity_pill (some (pyStr (jGetD damage "severity" (.str "N/A"))))
  { summaryVehicle :=
      let s := pyStrip (pyStr (jGetD vehicle "make" (.str "")) ++ " "
        ++ pyStr (jGetD vehicle "model" (.str "")))
      if s = "" then "N/A" else s
    summaryYear := pyStr (jGetD vehicle "year" (.str "N/A"))
    summaryOcr := pyStr (jGetD meta "ocr_characters" (.str "N/A"))
    summaryWorkflow := pyStr (jGetD meta "workflow" (.str "N/A"))
    make := pyStr (jGetD vehicle "make" (.str "N/A"))
    model := pyStr (jGetD vehicle "model" (.str "N/A"))
    color := pyStr (jGetD vehicle "color" (.str "N/A"))
    year := pyStr (jGetD vehicle "year" (.str "N/A"))
    date := pyStr (jGetD incident "date" (.str "N/A"))
    location := pyStr (jGetD incident "location" (.str "N/A"))
    description := pyStr (jGetD incident "description" (.str "N/A"))
    severityLabel := sevPill.1
    severityTier := sevPill.2
    costDisplay := estimated_cost_display damage
    areasCount := affected_areas_count damage
    areasList :=
      match affectedAreasVal damage with
      | .arr xs => xs
      | _ => []
    sourceImage := pyStr (jGetD meta "source_image" (.str "N/A")) }

/-- The function `display_results` (app.py lines 127-230): falsy data returns without
painting any panel (`.ok none`); a truthy dict paints the panels; a truthy
non-dict raises (`.error`, from `.get` on a non-dict). -/
def display_results (data : JVal) : Except String (Option Rendered) :=
  if pyTruthy data then
    match data with
    | .obj fs => do
        let vehicle ← sectGet fs "vehicle_info"
        let damage ← sectGet fs "damage_assessment"
        let incident ← sectGet fs "incident_info"
        let meta ← sectGet fs "metadata"
        pure (some (renderPanels vehicle damage incident meta))
    | _ => .error "AttributeError"
  else .ok none

/-- What `main` paints under the Results heading (app.py lines 324-334):
the success branch hands `result.get("data", {})` to `display_results`, the
failure branch paints `result.get("error", "Unknown error")`. -/
inductive SubmitView where
  | showData : JVal → SubmitView
  | showError : JVal → SubmitView

/-- The branch of `main` on the submission result (app.py lines 324-334):
`if result.get("success"):` — Python truthiness of the flag, `None` when the
key is absent. -/
def main_result_view (result : List (String × JVal)) : SubmitView :=
  if pyTruthy (jGetD result "success" .null) then
    .showData (jGetD result "data" (.obj []))
  else
    .showError (jGetD result "error" (.str "Unknown error"))

/-- Discriminator for `Except` results, used to state renderability. -/
def exceptOk {ε α : Type _} : Except ε α → Bool
  | .ok _ => true
  | .error _ => false

/-- All four section extractions of `display_results` succeed (each section
is absent, falsy, or a dict, so no `.get` call raises). -/
def sectionsRenderable (fs : List (String × JVal)) : Bool :=
  exceptOk (sectGet fs "vehicle_info") && exceptOk (sectGet fs "damage_assessment")
    && exceptOk (sectGet fs "incident_info") && exceptOk (sectGet fs "metadata")

/-- Numeric in the sense of the source's `isinstance(est, (int, float))`
test (which `bool` satisfies in Python). -/
def jIsNumeric : JVal → Bool
  | .num _ => true
  | .bool _ => true
  | _ => false

/-- The `str(e)` messages a backend behaviour can contribute to an error
dict are non-empty (the status-error message is non-empty by construction). -/
def backendMsgsNonempty : Backend → Prop
  | .transportError m => m ≠ ""
  | .httpResponse _ (.error m) => m ≠ ""
  | .httpResponse _ (.ok _) => True

example : severity_pill (some "Severe") = ("High", Tier.high) := by decide
example : severity_pill (some "  high  ") = ("High", Tier.high) := by decide
example : severity_pill (some "CRITICAL") = ("High", Tier.high) := by decide
example : severity_pill (some "significant") = ("High", Tier.high) := by decide
example : severity_pill (some "Medium") = ("Medium", Tier.medium) := by decide
example : severity_pill (some "moderate") = ("Medium", Tier.medium) := by decide
example : severity_pill (some "LOW") = ("Low", Tier.low) := by decide
example : severity_pill (some "minor") = ("Low", Tier.low) := by decide
example : severity_pill (some "") = ("N/A", Tier.neutral) := by decide
example : severity_pill none = ("N/A", Tier.neutral) := by decide
example : severity_pill (some "unknown") = ("unknown", Tier.neutral) := by decide
example : severity_pill (some "  ") = ("  ", Tier.neutral) := by decide

/-- The first character surviving `List.dropWhile` fails the predicate. -/
theorem head_dropWhile_false (p : Char → Bool) (l : List Char) (c : Char)
    (h : (l.dropWhile p).head? = some c) : p c = false := by
  induction l with
  | nil => simp [List.dropWhile] at h
  | cons hd tl ih =>
      rw [List.dropWhile_cons] at h
      by_cases hp : p hd
      · rw [if_pos hp] at h
        exact ih h
      · rw [if_neg hp] at h
        simp only [List.head?_cons, Option.some.injEq] at h
        subst h
        simpa using hp

/-- Dropping a prefix by a predicate twice is the same as dropping once. -/
theorem dropWhile_idem (p : Char → Bool) (l : List Char) :
    (l.dropWhile p).dropWhile p = l.dropWhile p := by
  induction l with
  | nil => rfl
  | cons hd tl ih =>
      rw [List.dropWhile_cons]
      by_cases hp : p hd
      · rw [if_pos hp]
        exact ih
      · rw [if_neg hp, List.dropWhile_cons, if_neg hp]

/-- Stripping trailing slashes is idempotent. -/
theorem rstripSlash_idem (s : String) : rstripSlash (rstripSlash s) = rstripSlash s := by
  unfold rstripSlash
  dsimp only
  rw [List.reverse_reverse, dropWhile_idem]

/-- A string stripped of trailing slashes does not end in a slash. -/
theorem rstripSlash_no_trailing (s : String) (c : Char)
    (h : (rstripSlash s).data.getLast? = some c) : c ≠ '/' := by
  unfold rstripSlash at h
  dsimp only at h
  rw [List.getLast?_reverse] at h
  have := head_dropWhile_false (fun x => x = '/') s.data.reverse c h
  simpa using this

/-- The modelled status-error message is never the empty string. -/
theorem statusErrText_ne_empty (status : Nat) : statusErrText status ≠ "" := by
  intro h
  have hd := congrArg String.data h
  rw [statusErrText] at hd
  simp [String.data_append] at hd

/-- Claim C1: severity classification lower-cases and trims the input; the
keyword sets severe/critical/high/significant, moderate/medium, minor/low
yield the labels High, Medium, Low with the matching tier; any other
non-empty string passes through literally with the neutral tier; the empty
string or Python None yields the label "N/A" with the neutral tier. -/
theorem severity_pill_classifies (severity : Option String) :
    (severityKey severity ∈ ["severe", "critical", "high", "significant"] →
      severity_pill severity = ("High", Tier.high)) ∧
    (severityKey severity ∈ ["moderate", "medium"] →
      severity_pill severity = ("Medium", Tier.medium)) ∧
    (severityKey severity ∈ ["minor", "low"] →
      severity_pill severity = ("Low", Tier.low)) ∧
    (severityKey severity ∉ ["severe", "critical", "high", "significant",
        "moderate", "medium", "minor", "low"] →
      ((severity = none ∨ severity = some "") →
        severity_pill severity = ("N/A", Tier.neutral)) ∧
      (∀ t, severity = some t → t ≠ "" →
        severity_pill severity = (t, Tier.neutral))) := by
  refine ⟨fun h => ?_, fun h => ?_, fun h => ?_, fun h => ?_⟩
  · simp [severity_pill, h]
  · simp only [List.mem_cons, List.not_mem_nil, or_false] at h
    rcases h with h | h <;> simp [severity_pill, h]
  · simp only [List.mem_cons, List.not_mem_nil, or_false] at h
    rcases h with h | h <;> simp [severity_pill, h]
  · simp only [List.mem_cons, List.not_mem_nil, or_false] at h
    push_neg at h
    obtain ⟨h1, h2, h3, h4, h5, h6, h7, h8⟩ := h
    constructor
    · rintro (rfl | rfl) <;>
        simp [severity_pill, h1, h2, h3, h4, h5, h6, h7, h8]
    · rintro t rfl ht
      simp [severity_pill, h1, h2, h3, h4, h5, h6, h7, h8, ht]

/-- Claim C1 witness: the classification evaluated on concrete severities
from each branch. -/
theorem severity_pill_classifies_witness :
    severity_pill (some "  CRITICAL ") = ("High", Tier.high) ∧
    severity_pill (some "Medium") = ("Medium", Tier.medium) ∧
    severity_pill (some "minor") = ("Low", Tier.low) ∧
    severity_pill none = ("N/A", Tier.neutral) ∧
    severity_pill (some "unknown") = ("unknown", Tier.neutral) :=
  ⟨(severity_pill_classifies (some "  CRITICAL ")).1 (by decide),
   (severity_pill_classifies (some "Medium")).2.1 (by decide),
   (severity_pill_classifies (some "minor")).2.2.1 (by decide),
   ((severity_pill_classifies none).2.2.2 (by decide)).1 (Or.inl rfl),
   ((severity_pill_classifies (some "unknown")).2.2.2 (by decide)).2 "unknown" rfl
     (by decide)⟩

/-- Claim C2 counterexample: a `None` (JSON null) affected-areas value is
displayed as the count 0, not as "N/A" — line 195's `or []` coerces every
falsy value, including `None`, to the empty list before the
`isinstance(..., list)` test of line 203. -/
theorem affected_areas_count_null_counterexample :
    affected_areas_count [("affected_areas", JVal.null)] = "0" ∧
    ("0" : String) ≠ "N/A" :=
  ⟨rfl, by decide⟩

/-- Claim C2 as amended: a truthy list displays its length; an absent,
null, or otherwise falsy value (including the empty list) is coerced to the
empty list and displays 0; only a truthy non-list value displays "N/A". -/
theorem affected_areas_count_amended (damage : List (String × JVal)) :
    (∀ xs, jGet damage "affected_areas" = some (.arr xs) → xs ≠ [] →
      affected_areas_count damage = toString xs.length) ∧
    (∀ v, jGet damage "affected_areas" = some v → pyTruthy v = false →
      affected_areas_count damage = "0") ∧
    (jGet damage "affected_areas" = none → affected_areas_count damage = "0") ∧
    (∀ v, jGet damage "affected_areas" = some v → pyTruthy v = true →
      (∀ xs, v ≠ .arr xs) → affected_areas_count damage = "N/A") := by
  refine ⟨fun xs h hne => ?_, fun v h hf => ?_, fun h => ?_, fun v h ht hnarr => ?_⟩
  · have : xs.isEmpty = false := by simpa using hne
    simp [affected_areas_count, affectedAreasVal, jGetD, h, pyTruthy, this]
  · simp [affected_areas_count, affectedAreasVal, jGetD, h, hf]
    decide
  · simp [affected_areas_count, affectedAreasVal, jGetD, h]
    decide
  · cases v with
    | arr xs => exact absurd rfl (hnarr xs)
    | null => simp [pyTruthy] at ht
    | bool b =>
        simp [affected_areas_count, affectedAreasVal, jGetD, h, ht]
    | num q =>
        simp [affected_areas_count, affectedAreasVal, jGetD, h, ht]
    | str s =>
        simp [affected_areas_count, affectedAreasVal, jGetD, h, ht]
    | obj fs =>
        simp [affected_areas_count, affectedAreasVal, jGetD, h, ht]

/-- Claim C2 witness: the amended count evaluated on a two-element list, on
a falsy value, on an absent key, and on a truthy non-list value. -/
theorem affected_areas_count_amended_witness :
    affected_areas_count [("affected_areas", JVal.arr [.str "front bumper", .str "hood"])] = "2" ∧
    affected_areas_count [("affected_areas", JVal.bool false)] = "0" ∧
    affected_areas_count [] = "0" ∧
    affected_areas_count [("affected_areas", JVal.str "front")] = "N/A" := by
  refine ⟨?_, ?_, ?_, ?_⟩
  · exact (affected_areas_count_amended
      [("affected_areas", JVal.arr [.str "front bumper", .str "hood"])]).1
      [.str "front bumper", .str "hood"] rfl (by simp)
  · exact (affected_areas_count_amended [("affected_areas", JVal.bool false)]).2.1
      (JVal.bool false) rfl (by decide)
  · exact (affected_areas_count_amended []).2.2.1 rfl
  · exact (affected_areas_count_amended [("affected_areas", JVal.str "front")]).2.2.2
      (JVal.str "front") rfl (by decide) (fun xs => by simp)

/-- Claim C3: the estimated-cost cell renders a numeric value with a
currency symbol, thousands separators and exactly two decimals (1234.5
becomes "1,234.50"), renders a present non-numeric value raw, and renders
"N/A" when the value is absent or null. -/
theorem estimated_cost_display_spec (damage : List (String × JVal)) :
    (∀ q, jGet damage "estimated_cost" = some (.num q) →
      estimated_cost_display damage = "$" ++ formatCommas2 q) ∧
    (∀ v, jGet damage "estimated_cost" = some v → jIsNumeric v = false →
      v ≠ .null → estimated_cost_display damage = pyStr v) ∧
    ((jGet damage "estimated_cost" = none ∨
        jGet damage "estimated_cost" = some .null) →
      estimated_cost_display damage = "N/A") ∧
    formatCommas2 (mkRat 2469 2) = "1,234.50" := by
  refine ⟨fun q h => ?_, fun v h hnum hnull => ?_, fun h => ?_, by decide⟩
  · simp [estimated_cost_display, jGetD, h]
  · cases v with
    | null => exact absurd rfl hnull
    | num q => simp [jIsNumeric] at hnum
    | bool b => simp [jIsNumeric] at hnum
    | str s => simp [estimated_cost_display, jGetD, h, pyStr]
    | arr xs => simp [estimated_cost_display, jGetD, h, pyStr]
    | obj fs => simp [estimated_cost_display, jGetD, h, pyStr]
  · rcases h with h | h <;> simp [estimated_cost_display, jGetD, h]

/-- Claim C3 witness: the cost cell evaluated at 1234.5, at the string
"pending", and with the key absent. -/
theorem estimated_cost_display_spec_witness :
    estimated_cost_display [("estimated_cost", JVal.num (mkRat 2469 2))] = "$1,234.50" ∧
    estimated_cost_display [("estimated_cost", JVal.str "pending")] = "pending" ∧
    estimated_cost_display [] = "N/A" := by
  refine ⟨?_, ?_, ?_⟩
  · have h := (estimated_cost_display_spec
      [("estimated_cost", JVal.num (mkRat 2469 2))]).1 (mkRat 2469 2) rfl
    rw [h]
    decide
  · exact (estimated_cost_display_spec [("estimated_cost", JVal.str "pending")]).2.1
      (JVal.str "pending") rfl (by decide) (by simp)
  · exact (estimated_cost_display_spec []).2.2.1 (Or.inl rfl)

/-- Claim C4: for every base URL and backend behaviour, `check_health`
returns a value (never raises); on a 2xx response with a parseable JSON body
it returns that parsed body, and in every failure case it returns the dict
`{"status": "error", "error": m}` with a non-empty message `m` (non-empty
provided the exception messages the environment supplies are). -/
theorem check_health_never_raises (api_url : String) (net : String → Backend)
    (hmsg : backendMsgsNonempty (net (api_url ++ "/health"))) :
    match net (api_url ++ "/health") with
    | .httpResponse status (.ok v) =>
        if is2xx status then check_health api_url net = v
        else ∃ m, m ≠ "" ∧ check_health api_url net = healthErr m
    | .httpResponse _ (.error _) => ∃ m, m ≠ "" ∧ check_health api_url net = healthErr m
    | .transportError _ => ∃ m, m ≠ "" ∧ check_health api_url net = healthErr m := by
  rcases hnet : net (api_url ++ "/health") with m | ⟨status, body⟩
  · rw [hnet] at hmsg
    exact ⟨m, hmsg, by simp [check_health, hnet]⟩
  · cases body with
    | ok v =>
        by_cases h2 : is2xx status
        · simp [check_health, hnet, h2]
        · simp only [h2, if_false]
          exact ⟨statusErrText status, statusErrText_ne_empty status,
            by simp [check_health, hnet, h2]⟩
    | error m =>
        rw [hnet] at hmsg
        by_cases h2 : is2xx status
        · exact ⟨m, hmsg, by simp [check_health, hnet, h2]⟩
        · exact ⟨statusErrText status, statusErrText_ne_empty status,
            by simp [check_health, hnet, h2]⟩

/-- Claim C4 witness: a refused connection yields the error dict with a
non-empty message, and a healthy 2xx body is returned verbatim. -/
theorem check_health_never_raises_witness :
    (∃ m, m ≠ "" ∧
      check_health "http://localhost:8080"
        (fun _ => Backend.transportError "Connection refused") = healthErr m) ∧
    check_health "http://localhost:8080"
      (fun _ => Backend.httpResponse 200
        (.ok (.obj [("status", .str "healthy"), ("version", .str "1.0")])))
      = .obj [("status", .str "healthy"), ("version", .str "1.0")] := by
  constructor
  · exact check_health_never_raises "http://localhost:8080"
      (fun _ => Backend.transportError "Connection refused")
      (by simp [backendMsgsNonempty])
  · have h := check_health_never_raises "http://localhost:8080"
      (fun _ => Backend.httpResponse 200
        (.ok (.obj [("status", .str "healthy"), ("version", .str "1.0")]))) trivial
    simpa using h

/-- Claim C5: for every claim submission, `process_claim` returns a value
(never raises); on a 2xx response with a parseable body it returns the
parsed body verbatim (so the success flag is whatever the body carries), and
on any failure (transport error, non-2xx status, unparseable body) it
returns `{"success": False, "error": m}`. -/
theorem process_claim_never_raises (api_url : String) (file_content : List Nat)
    (filename : String) (mime : String) (net : UploadRequest → Backend) :
    match net ⟨api_url ++ "/process-claim/upload", filename, file_content, mime⟩ with
    | .httpResponse status (.ok v) =>
        if is2xx status then
          process_claim api_url file_content filename mime net = v
        else
          process_claim api_url file_content filename mime net
            = claimErr (statusErrText status)
    | .httpResponse status (.error m) =>
        process_claim api_url file_content filename mime net
          = claimErr (if is2xx status then m else statusErrText status)
    | .transportError m =>
        process_claim api_url file_content filename mime net = claimErr m := by
  rcases hnet : net ⟨api_url ++ "/process-claim/upload", filename, file_content, mime⟩
    with m | ⟨status, body⟩
  · simp [process_claim, hnet]
  · cases body with
    | ok v =>
        by_cases h2 : is2xx status <;> simp [process_claim, hnet, h2]
    | error m =>
        by_cases h2 : is2xx status <;> simp [process_claim, hnet, h2]

/-- Claim C5 witness: a transport failure yields the tagged failure dict,
and a 2xx body is returned verbatim including its own success flag. -/
theorem process_claim_never_raises_witness :
    process_claim "http://localhost:8080" [1, 2] "photo.jpg" "image/jpeg"
      (fun _ => Backend.transportError "timeout") = claimErr "timeout" ∧
    process_claim "http://localhost:8080" [1, 2] "photo.jpg" "image/jpeg"
      (fun _ => Backend.httpResponse 200
        (.ok (.obj [("success", .bool true), ("data", .obj [])])))
      = .obj [("success", .bool true), ("data", .obj [])] := by
  constructor
  · exact process_claim_never_raises "http://localhost:8080" [1, 2] "photo.jpg"
      "image/jpeg" (fun _ => Backend.transportError "timeout")
  · have h := process_claim_never_raises "http://localhost:8080" [1, 2] "photo.jpg"
      "image/jpeg" (fun _ => Backend.httpResponse 200
        (.ok (.obj [("success", .bool true), ("data", .obj [])])))
    simpa using h

/-- Claim C6: the inferred mime type is "image/png" exactly when the
lower-cased filename ends with ".png", and "image/jpeg" for every other
filename. -/
theorem inferMime_spec (filename : String) :
    (inferMime filename = "image/png" ↔ pyEndsWith (pyLower filename) ".png" = true) ∧
    (pyEndsWith (pyLower filename) ".png" = false →
      inferMime filename = "image/jpeg") := by
  by_cases h : pyEndsWith (pyLower filename) ".png" = true
  · refine ⟨⟨fun _ => h, fun _ => by simp [inferMime, h]⟩, fun hf => ?_⟩
    rw [h] at hf
    exact absurd hf (by decide)
  · have hf : pyEndsWith (pyLower filename) ".png" = false := by
      simpa using h
    refine ⟨⟨fun hc => ?_, fun ht => absurd ht h⟩, fun _ => by simp [inferMime, hf]⟩
    rw [inferMime, if_neg (by simp [hf])] at hc
    exact absurd hc (by decide)

/-- Claim C6 witness: the mime inference evaluated on an upper-case png
name and on jpg and jpeg names. -/
theorem inferMime_spec_witness :
    inferMime "photo.PNG" = "image/png" ∧
    inferMime "photo.jpg" = "image/jpeg" ∧
    inferMime "photo.jpeg" = "image/jpeg" :=
  ⟨(inferMime_spec "photo.PNG").1.mpr (by decide),
   (inferMime_spec "photo.jpg").2 (by decide),
   (inferMime_spec "photo.jpeg").2 (by decide)⟩

/-- Claim C7: the resolved API base URL is the session override when one
exists, else the API_URL environment variable when set, else the hard-coded
default, and in every case trailing slashes are stripped (the resolved URL
never ends in a slash). -/
theorem get_api_url_precedence (env sessionOverride : Option String) :
    (∀ u, sessionOverride = some u →
      get_api_url env sessionOverride = rstripSlash u) ∧
    (sessionOverride = none → ∀ e, env = some e →
      get_api_url env sessionOverride = rstripSlash e) ∧
    (sessionOverride = none → env = none →
      get_api_url env sessionOverride = rstripSlash DEFAULT_URL_LITERAL) ∧
    (∀ c, (get_api_url env sessionOverride).data.getLast? = some c → c ≠ '/') := by
  refine ⟨fun u hu => ?_, fun hs e he => ?_, fun hs he => ?_, fun c hc => ?_⟩
  · subst hu
    simp [get_api_url]
  · subst hs
    subst he
    simp [get_api_url, DEFAULT_API_URL, rstripSlash_idem]
  · subst hs
    subst he
    simp [get_api_url, DEFAULT_API_URL, rstripSlash_idem]
  · exact rstripSlash_no_trailing (sessionOverride.getD (DEFAULT_API_URL env)) c hc

/-- Claim C7 witness: the precedence evaluated with an override present,
with only the environment variable set, and with neither. -/
theorem get_api_url_precedence_witness :
    get_api_url (some "http://env/") (some "http://session///") = "http://session" ∧
    get_api_url (some "http://env///") none = "http://env" ∧
    get_api_url none none = rstripSlash DEFAULT_URL_LITERAL := by
  refine ⟨?_, ?_, ?_⟩
  · have h := (get_api_url_precedence (some "http://env/")
      (some "http://session///")).1 "http://session///" rfl
    rw [h]
    decide
  · have h := (get_api_url_precedence (some "http://env///") none).2.1 rfl
      "http://env///" rfl
    rw [h]
    decide
  · exact (get_api_url_precedence none none).2.2.1 rfl rfl

/-- Claim C9: when a submission response body (a 2xx parsed JSON dict) lacks
the "success" key, or carries a falsy value for it, `main` takes the failure
path: it shows the error state rather than claim data, with the generic
message "Unknown error" when no explicit error message is present. -/
theorem main_missing_success_is_failure (result : List (String × JVal))
    (h : jGet result "success" = none ∨
      ∃ v, jGet result "success" = some v ∧ pyTruthy v = false) :
    (∃ m, main_result_view result = .showError m) ∧
    (jGet result "error" = none →
      main_result_view result = .showError (.str "Unknown error")) := by
  have hfalse : pyTruthy (jGetD result "success" .null) = false := by
    rcases h with h | ⟨v, hv, hf⟩
    · simp [jGetD, h, pyTruthy]
    · simp [jGetD, hv, hf]
  refine ⟨⟨jGetD result "error" (.str "Unknown error"), ?_⟩, fun he => ?_⟩
  · simp [main_result_view, hfalse]
  · simp only [main_result_view, hfalse, Bool.false_eq_true, if_false]
    simp [jGetD, he]

/-- Claim C9 witness: a 2xx body carrying only data and no success flag is
shown as the generic error, not as claim data. -/
theorem main_missing_success_is_failure_witness :
    main_result_view [("data", JVal.obj [("vehicle_info", JVal.obj [])])]
      = .showError (.str "Unknown error") :=
  (main_missing_success_is_failure [("data", JVal.obj [("vehicle_info", JVal.obj [])])]
    (Or.inl rfl)).2 rfl

/-- Claim C10: on a successful submission whose response lacks a "data"
field, or whose data is the empty dict or null, the renderer returns
immediately and paints no claim panels, while `main` still takes the
success branch (success pill and Results heading). -/
theorem success_empty_data_no_panels (result : List (String × JVal))
    (hs : pyTruthy (jGetD result "success" .null) = true)
    (hd : jGet result "data" = none ∨ jGet result "data" = some (.obj []) ∨
      jGet result "data" = some .null) :
    main_result_view result = .showData (jGetD result "data" (.obj [])) ∧
    display_results (jGetD result "data" (.obj [])) = .ok none := by
  constructor
  · simp [main_result_view, hs]
  · rcases hd with h | h | h <;> simp [jGetD, h, display_results, pyTruthy]

/-- Claim C10 witness: a successful response with no data key takes the
success branch yet paints no panels. -/
theorem success_empty_data_no_panels_witness :
    main_result_view [("success", JVal.bool true)]
      = .showData (jGetD [("success", JVal.bool true)] "data" (.obj [])) ∧
    display_results (jGetD [("success", JVal.bool true)] "data" (.obj [])) = .ok none :=
  success_empty_data_no_panels [("success", JVal.bool true)] (by decide) (Or.inl rfl)

/-- An `Except` value satisfying `exceptOk` is an `ok`. -/
theorem exceptOk_exists {ε α : Type _} {e : Except ε α} (h : exceptOk e = true) :
    ∃ a, e = .ok a := by
  cases e with
  | ok a => exact ⟨a, rfl⟩
  | error b => simp [exceptOk] at h

/-- Claim C8 counterexample: a leaf field that is present with JSON null is
not given a fallback — `vehicle.get("make", "N/A")` returns `None` for a
present null key, and the panel renders the string "None", not "N/A". -/
theorem null_field_renders_none_counterexample :
    (display_results (JVal.obj [("vehicle_info", JVal.obj [("make", JVal.null)])])).map
      (Option.map Rendered.make) = .ok (some "None") ∧
    ("None" : String) ≠ "N/A" :=
  ⟨rfl, by decide⟩

/-- Claim C8 as amended: for every truthy payload whose four sections are
each absent, falsy or a dict, rendering succeeds (no display path fails);
every absent leaf field falls back ("N/A" for text fields and the cost, "0"
for the affected-areas count, neutral "N/A" pill for the severity) — but a
leaf field present with JSON null renders Python's `str(None)`, the string
"None", rather than a fallback. -/
theorem display_results_fallback_amended (fs : List (String × JVal))
    (hne : pyTruthy (JVal.obj fs) = true)
    (hsect : sectionsRenderable fs = true) :
    ∃ r, display_results (JVal.obj fs) = .ok (some r) ∧
      (∀ veh, sectGet fs "vehicle_info" = .ok veh →
        (jGet veh "make" = none → r.make = "N/A") ∧
        (jGet veh "make" = some .null → r.make = "None")) ∧
      (∀ dam, sectGet fs "damage_assessment" = .ok dam →
        (jGet dam "estimated_cost" = none → r.costDisplay = "N/A") ∧
        (jGet dam "affected_areas" = none → r.areasCount = "0") ∧
        (jGet dam "severity" = none →
          r.severityLabel = "N/A" ∧ r.severityTier = Tier.neutral)) ∧
      (∀ inc, sectGet fs "incident_info" = .ok inc →
        (jGet inc "description" = none → r.description = "N/A")) ∧
      (∀ met, sectGet fs "metadata" = .ok met →
        (jGet met "source_image" = none → r.sourceImage = "N/A")) := by
  simp only [sectionsRenderable, Bool.and_eq_true] at hsect
  obtain ⟨⟨⟨hv, hd⟩, hi⟩, hm⟩ := hsect
  obtain ⟨veh, hveh⟩ := exceptOk_exists hv
  obtain ⟨dam, hdam⟩ := exceptOk_exists hd
  obtain ⟨inc, hinc⟩ := exceptOk_exists hi
  obtain ⟨met, hmet⟩ := exceptOk_exists hm
  refine ⟨renderPanels veh dam inc met, ?_, ?_, ?_, ?_, ?_⟩
  · simp only [display_results, hne, hveh, hdam, hinc, hmet, if_true]
    rfl
  · rintro veh' hveh'
    rw [hveh] at hveh'
    injection hveh' with heq
    subst heq
    constructor
    · intro h
      simp [renderPanels, jGetD, h, pyStr]
    · intro h
      simp [renderPanels, jGetD, h, pyStr, pyRepr]
  · rintro dam' hdam'
    rw [hdam] at hdam'
    injection hdam' with heq
    subst heq
    refine ⟨fun h => ?_, fun h => ?_, fun h => ?_⟩
    · simp [renderPanels, estimated_cost_display, jGetD, h]
    · simp [renderPanels, affected_areas_count, affectedAreasVal, jGetD, h]
      decide
    · constructor <;> simp [renderPanels, jGetD, h, pyStr] <;> decide
  · rintro inc' hinc'
    rw [hinc] at hinc'
    injection hinc' with heq
    subst heq
    intro h
    simp [renderPanels, jGetD, h, pyStr]
  · rintro met' hmet'
    rw [hmet] at hmet'
    injection hmet' with heq
    subst heq
    intro h
    simp [renderPanels, jGetD, h, pyStr]

/-- Claim C8 witness: the amended fallback behaviour evaluated on a payload
whose sections are absent or null — rendering succeeds and the sampled leaf
fields fall back. -/
theorem display_results_fallback_amended_witness :
    ∃ r, display_results (JVal.obj [("incident_info", JVal.null)]) = .ok (some r) ∧
      r.make = "N/A" ∧ r.costDisplay = "N/A" := by
  obtain ⟨r, hr, hvehf, hdamf, hincf, hmetf⟩ :=
    display_results_fallback_amended [("incident_info", JVal.null)]
      (by decide) (by decide)
  exact ⟨r, hr, (hvehf [] rfl).1 rfl, (hdamf [] rfl).1 rfl⟩
